import Mathlib

/-!
Verification of the BotForge webhook relay (src/main.py).

The development shallowly embeds the Python module: JSON dictionaries become
structures with `Option` fields (a `none` field stands for an absent key, or,
where the Python code tests truthiness, for an absent-or-falsy value);
outbound network effects become explicit lists of issued `HttpRequest`
values plus oracle functions supplying the network responses; the dynamic
`exec` of operator handler code becomes an abstract semantics parameter
`HandlerSem` mapping the handler source text and the execution context to
either a final reply string or an exception message.  Exceptions in the
Python code are embedded as `Except String` results.
-/

namespace BotForge

/-! ## Python string methods

The Lean core `String` functions on byte positions do not reduce inside the
kernel, so the handful of Python string methods the module uses are given
directly as executable functions over the underlying character list. -/

/-- Python `str.strip()`: drop leading and trailing whitespace. -/
def pyStrip (s : String) : String :=
  ⟨((s.data.dropWhile Char.isWhitespace).reverse.dropWhile Char.isWhitespace).reverse⟩

/-- Python `str.startswith(pre)`. -/
def pyStartsWith (s pre : String) : Bool :=
  pre.data.isPrefixOf s.data

/-- Python `str.lower()`. -/
def pyLower (s : String) : String :=
  ⟨s.data.map Char.toLower⟩

/-- Python `str.split()[0]` on a stripped non-empty string: its longest
prefix of non-whitespace characters. -/
def firstToken (s : String) : String :=
  ⟨s.data.takeWhile fun c => !c.isWhitespace⟩

/-- Python `str.split("@")[0]`: the prefix before the first at sign. -/
def beforeAt (s : String) : String :=
  ⟨s.data.takeWhile fun c => c ≠ '@'⟩

/-- Python `str[n:]`. -/
def pyDrop (s : String) (n : Nat) : String :=
  ⟨s.data.drop n⟩

/-! ## Data model: inbound Telegram update (projected JSON dictionaries) -/

/-- Projection of the `chat` sub-dictionary of a message: `id` is `none`
when the key is absent. -/
structure Chat where
  id : Option Int
deriving DecidableEq

/-- Projection of the `from` sub-dictionary of a message (sender). -/
structure Sender where
  id : Option Int
  username : Option String
  first_name : Option String
deriving DecidableEq

/-- Projection of a Telegram message dictionary.  A `none` sub-field stands
for an absent key, so chained `.get` calls with defaults are `Option.bind`
and `Option.getD`. -/
structure Message where
  chat : Option Chat
  from_ : Option Sender
  text : Option String
deriving DecidableEq

/-- Projection of an inbound update.  `message = none` stands for the
`message` key being absent or falsy (the empty dictionary), which is exactly
the condition under which the Python expression
`update.get("message") or update.get("edited_message")` falls through to the
edited message; both cases also behave identically under every later
`.get` access the module performs. -/
structure Update where
  message : Option Message
  edited_message : Option Message
deriving DecidableEq

/-- The Python expression `update.get("message") or update.get("edited_message")`
from the head of `handle_update`. -/
def pickedMsg (u : Update) : Option Message :=
  u.message.orElse fun _ => u.edited_message

/-! ## Commands fetched from the external backend -/

/-- Projection of one command dictionary returned by the PHP backend.
`is_ai_assistant` is the truthiness of the corresponding JSON value. -/
structure Command where
  command_name : Option String
  handler_code : Option String
  is_ai_assistant : Bool
  ai_system_prompt : Option String
deriving DecidableEq

/-! ## Outbound HTTP requests (observable effects of the module) -/

/-- Structured rendering of the request URLs the module builds.  The token
or host strings are carried unencoded; the exact URL-encoding performed by
`urllib.parse.quote` is not observable by any claim. -/
inductive Url where
  | tgSendMessage (token : String)
  | tgGetMe (token : String)
  | getBotCommands (host : String) (token : String)
  | aiChat (host : String)
  | logMessagePhp (host : String)
  | logErrorPhp (host : String)
deriving DecidableEq

/-- Structured rendering of the JSON request bodies the module builds. -/
inductive Payload where
  | sendMessage (chat_id : Int) (text : String) (parse_mode : String)
  | aiChat (token : String) (message : String) (system_prompt : String)
  | logMsg (token : String) (telegram_user_id : Int) (username : String)
      (message : String) (response : String)
  | logErr (token : String) (command_name : String) (error_message : String)
      (telegram_user_id : Int)
deriving DecidableEq

/-- One outbound HTTP request as handed to `urllib.request.urlopen`,
recording the timeout argument passed. -/
structure HttpRequest where
  url : Url
  method : String
  timeout : Nat
  body : Option Payload
deriving DecidableEq

/-- Truthiness of `res.get("ok")` on the dictionary `telegram_send` returns. -/
structure TgSendResult where
  ok : Bool
deriving DecidableEq

/-- Parsed JSON body of the AI-chat backend response: `reply` is `none` when
the `reply` key is absent. -/
structure AiResp where
  reply : Option String
deriving DecidableEq

/-! ## Messaging-platform client and external-backend bridge

Each function takes its network behaviour as an oracle argument
(`HttpRequest → Except String response`, an `Except.error` standing for any
exception raised by `urlopen`/`json.loads`) and returns its Python result
paired with the list of HTTP requests it issued. -/

/-- Embedding of `telegram_send` (src/main.py lines 32-41): POST sendMessage
with timeout 8; any exception degrades to a dictionary with a falsy `ok`. -/
def telegram_send (tg : HttpRequest → Except String TgSendResult)
    (token : String) (chat_id : Int) (text : String) :
    TgSendResult × List HttpRequest :=
  let req : HttpRequest :=
    { url := Url.tgSendMessage token, method := "POST", timeout := 8,
      body := some (Payload.sendMessage chat_id text "Markdown") }
  match tg req with
  | Except.ok r => (r, [req])
  | Except.error _ => ({ ok := false }, [req])

/-- Embedding of `get_bot_commands` (lines 44-60): empty host short-circuits
to `[]` with no request; otherwise GET with timeout 8, any exception or
missing `commands` key degrading to `[]`.  The oracle returns the value of
`data.get("commands", [])` already projected to a command list. -/
def get_bot_commands (phpHost : String)
    (fetch : HttpRequest → Except String (List Command)) (token : String) :
    List Command × List HttpRequest :=
  if phpHost = "" then ([], [])
  else
    let req : HttpRequest :=
      { url := Url.getBotCommands phpHost token, method := "GET", timeout := 8,
        body := none }
    match fetch req with
    | Except.ok cs => (cs, [req])
    | Except.error _ => ([], [req])

/-- Embedding of `log_message` (lines 63-79): empty host short-circuits with
no request; otherwise POST with timeout 5, the result discarded and any
exception swallowed. -/
def log_message (phpHost : String) (logm : HttpRequest → Except String Unit)
    (token : String) (telegram_user_id : Int)
    (username message response : String) : List HttpRequest :=
  if phpHost = "" then []
  else
    let req : HttpRequest :=
      { url := Url.logMessagePhp phpHost, method := "POST", timeout := 5,
        body := some (Payload.logMsg token telegram_user_id username message response) }
    let _discarded := logm req
    [req]

/-- Embedding of `log_error` (lines 82-97): empty host short-circuits with
no request; otherwise POST with timeout 5, the result discarded and any
exception swallowed. -/
def log_error (phpHost : String) (loge : HttpRequest → Except String Unit)
    (token : String) (command_name : String) (error_message : String)
    (telegram_user_id : Int) : List HttpRequest :=
  if phpHost = "" then []
  else
    let req : HttpRequest :=
      { url := Url.logErrorPhp phpHost, method := "POST", timeout := 5,
        body := some (Payload.logErr token command_name error_message telegram_user_id) }
    let _discarded := loge req
    [req]

/-- Embedding of `call_ai` (lines 100-120): empty host short-circuits to the
fixed sentinel with no request; otherwise POST with timeout 15, a missing
`reply` key giving the fixed error sentinel and any exception giving the
prefixed unavailability sentinel. -/
def call_ai (phpHost : String) (ai : HttpRequest → Except String AiResp)
    (token user_message system_prompt : String) : String × List HttpRequest :=
  if phpHost = "" then ("AI is not configured.", [])
  else
    let req : HttpRequest :=
      { url := Url.aiChat phpHost, method := "POST", timeout := 15,
        body := some (Payload.aiChat token user_message system_prompt) }
    match ai req with
    | Except.ok d => (d.reply.getD "AI error", [req])
    | Except.error e => ("AI unavailable: " ++ e, [req])

/-! ## Response-handler execution environment -/

/-- Execution context built by `execute_handler` (lines 129-141): the local
variables exposed to the operator handler code. -/
structure ExecCtx where
  user_message : String
  chat_id : Int
  username : String
  first_name : String
  update : Update
  reply_text : String
deriving DecidableEq

/-- Embedding of lines 129-141 of `execute_handler`: the context is read from
`update.get("message", \x7b\x7d)` (not from the edited message) with
defaults 0, "user" and "there", and `reply_text` starts as the fixed
placeholder. -/
def buildExecCtx (user_message : String) (update : Update) : ExecCtx :=
  let msg := update.message.getD { chat := none, from_ := none, text := none }
  { user_message := user_message
    chat_id := (msg.chat.bind Chat.id).getD 0
    username := (msg.from_.bind Sender.username).getD "user"
    first_name := (msg.from_.bind Sender.first_name).getD "there"
    update := update
    reply_text := "Command executed." }

/-- Abstract semantics of `exec` on operator handler code: given the handler
source text and the execution context, produce either the final value of
`str(local_vars.get("reply_text", "Done."))` or the text of the exception
raised during evaluation. -/
def HandlerSem : Type :=
  String → ExecCtx → Except String String

/-- Embedding of `execute_handler` (lines 123-146): any exception during
evaluation is re-raised as a RuntimeError whose text is prefixed with
"Handler error: ". -/
def execute_handler (execSem : HandlerSem) (handler_code : String)
    (user_message : String) (update : Update) : Except String String :=
  match execSem handler_code (buildExecCtx user_message update) with
  | Except.ok r => Except.ok r
  | Except.error e => Except.error ("Handler error: " ++ e)

/-! ## Update orchestrator -/

/-- Command-token extraction (lines 163-167): only texts starting with "/"
yield a token; the token is the first whitespace-delimited word, cut at the
first "@" and lowercased.  Since the text handed in is already stripped and
non-empty, Python `text.split()[0]` is its longest non-whitespace prefix. -/
def extractCmdName (text : String) : Option String :=
  if pyStartsWith text "/" then
    some (pyLower (beforeAt (firstToken text)))
  else none

/-- One step of the command-map construction loop (lines 176-182): insert the
lowercased name (later duplicates overwrite the stored command but keep the
original insertion position, as Python dictionaries do) and record the last
truthy AI-assistant flag together with its system prompt. -/
def cmdFold (acc : List (String × Command) × Bool × String) (c : Command) :
    List (String × Command) × Bool × String :=
  let cname := pyLower (c.command_name.getD "")
  let m :=
    if acc.1.any (fun p => p.1 = cname) then
      acc.1.map fun p => if p.1 = cname then (cname, c) else p
    else acc.1 ++ [(cname, c)]
  if c.is_ai_assistant then (m, true, c.ai_system_prompt.getD "")
  else (m, acc.2.1, acc.2.2)

/-- The insertion-ordered command map built by lines 173-182. -/
def buildCmdMap (cs : List Command) : List (String × Command) :=
  (cs.foldl cmdFold ([], false, "")).1

/-- The bot-level AI flag and system prompt accumulated by lines 174-182. -/
def aiFlags (cs : List Command) : Bool × String :=
  (cs.foldl cmdFold ([], false, "")).2

/-- Observable calls the orchestrator makes to the client and bridge
functions, in order. -/
inductive Event where
  | fetchCommands (token : String)
  | sendMessage (token : String) (chat_id : Int) (text : String)
  | aiChat (token : String) (message : String) (system_prompt : String)
  | logMessage (token : String) (user_id : Int) (username : String)
      (message : String) (response : String)
  | logError (token : String) (command_name : String) (error_message : String)
      (user_id : Int)
deriving DecidableEq

/-- Network oracles for the five outbound operations. -/
structure Net where
  tg : HttpRequest → Except String TgSendResult
  fetch : HttpRequest → Except String (List Command)
  ai : HttpRequest → Except String AiResp
  logm : HttpRequest → Except String Unit
  loge : HttpRequest → Except String Unit

/-- Python string join: `sep.join(xs)`. -/
def pyJoin (sep : String) : List String → String
  | [] => ""
  | [x] => x
  | x :: y :: xs => x ++ sep ++ pyJoin sep (y :: xs)

/-- The built-in greeting of line 199. -/
def startGreeting : String :=
  "👋 Hello! I\x27m up and running. Use /help to see available commands."

/-- The built-in help listing of lines 202-206: header line, then one
back-tick-quoted name per configured command, joined by newlines in the
insertion order of the command map. -/
def helpReply (cmd_map : List (String × Command)) : String :=
  pyJoin "\n" ("*Available Commands:*\n" :: cmd_map.map fun p => "`" ++ p.1 ++ "`")

/-- The guard of line 186: `cmd_name and cmd_name in cmd_map`, yielding the
matched name and command. -/
def dispatchTarget (cmd_name : Option String) (cmd_map : List (String × Command)) :
    Option (String × Command) :=
  match cmd_name with
  | none => none
  | some cn => if cn = "" then none else (cmd_map.lookup cn).map fun c => (cn, c)

/-- The branch cascade of lines 184-208, producing the optional reply
together with the events and requests the chosen branch emits. -/
def runBranch (phpHost : String) (net : Net) (execSem : HandlerSem)
    (token : String) (update : Update) (cmd_name : Option String)
    (cmd_map : List (String × Command)) (ai : Bool × String)
    (text : String) (user_id : Int) :
    Option String × List Event × List HttpRequest :=
  match dispatchTarget cmd_name cmd_map with
  | some (cn, cmd) =>
    match execute_handler execSem (cmd.handler_code.getD "reply_text = \x27Hi!\x27") text update with
    | Except.ok r => (some r, [], [])
    | Except.error e =>
      (some "Sorry, something went wrong with that command.",
       [Event.logError token cn e user_id],
       log_error phpHost net.loge token cn e user_id)
  | none =>
    if ai.1 && !(text = "") && !(pyStartsWith text "/") then
      let aiRes := call_ai phpHost net.ai token text ai.2
      (some aiRes.1, [Event.aiChat token text ai.2], aiRes.2)
    else if text = "/start" then (some startGreeting, [], [])
    else if text = "/help" then
      (some (if cmd_map.isEmpty then "No commands configured for this bot yet."
             else helpReply cmd_map), [], [])
    else (none, [], [])

/-- The completion step of lines 210-212: a truthy reply is sent and then
logged, the logged response being the reply on a truthy `ok` and the literal
sentinel otherwise; a missing or empty reply does nothing. -/
def completeReply (phpHost : String) (net : Net) (token : String)
    (chat_id user_id : Int) (username text : String) (reply? : Option String) :
    List Event × List HttpRequest :=
  match reply? with
  | none => ([], [])
  | some reply =>
    if reply = "" then ([], [])
    else
      let res := telegram_send net.tg token chat_id reply
      let logged := if res.1.ok then reply else "[send failed]"
      let lreqs := log_message phpHost net.logm token user_id username text logged
      ([Event.sendMessage token chat_id reply,
        Event.logMessage token user_id username text logged],
       res.2 ++ lreqs)

/-- Embedding of `handle_update` (lines 149-212).  The first component of the
result is the ordered list of calls made to the client and bridge functions,
the second the outbound HTTP requests those calls issued.  The drop guard
`if not chat_id or not text` is rendered with `Option.getD 0 = 0`, which is
exactly Python falsiness of a missing-or-zero chat identifier. -/
def handle_update (phpHost : String) (net : Net) (execSem : HandlerSem)
    (token : String) (update : Update) : List Event × List HttpRequest :=
  match pickedMsg update with
  | none => ([], [])
  | some msg =>
    let chatId? := msg.chat.bind Chat.id
    let user_id := (msg.from_.bind Sender.id).getD 0
    let username := (msg.from_.bind Sender.username).getD ""
    let text := pyStrip (msg.text.getD "")
    if chatId?.getD 0 = 0 ∨ text = "" then ([], [])
    else
      let chat_id := chatId?.getD 0
      let cmd_name := extractCmdName text
      let fetched := get_bot_commands phpHost net.fetch token
      let cmd_map := buildCmdMap fetched.1
      let ai := aiFlags fetched.1
      let branch := runBranch phpHost net execSem token update cmd_name cmd_map ai text user_id
      let comp := completeReply phpHost net token chat_id user_id username text branch.1
      (Event.fetchCommands token :: (branch.2.1 ++ comp.1),
       fetched.2 ++ branch.2.2 ++ comp.2)

/-! ## Observables over event traces -/

/-- Texts of the sendMessage calls in a trace. -/
def sentTexts (evs : List Event) : List String :=
  evs.filterMap fun e =>
    match e with
    | Event.sendMessage _ _ t => some t
    | _ => none

/-- Arguments of the logMessage calls in a trace. -/
def loggedMessages (evs : List Event) :
    List (String × Int × String × String × String) :=
  evs.filterMap fun e =>
    match e with
    | Event.logMessage tk uid un m r => some (tk, uid, un, m, r)
    | _ => none

/-- Arguments of the logError calls in a trace. -/
def loggedErrors (evs : List Event) : List (String × String × String × Int) :=
  evs.filterMap fun e =>
    match e with
    | Event.logError tk cn em uid => some (tk, cn, em, uid)
    | _ => none

/-! ## HTTP entry point (reduced variant, the one present in src/) -/

/-- Response bodies the entry point produces, as structured JSON. -/
inductive RespBody where
  | okTrue
  | err (msg : String)
  | health (php_host : String)
  | validateOk (username : String) (first_name : String) (bot_id : Int)
  | validateErr (error : String)
deriving DecidableEq

/-- An HTTP response: status code and JSON body. -/
structure HttpResp where
  code : Nat
  body : RespBody
deriving DecidableEq

/-- Path normalisation of lines 231 and 252:
`self.path.split("?")[0].rstrip("/")`. -/
def stripQuery (p : String) : String :=
  ⟨((p.data.takeWhile fun c => c ≠ '?').reverse.dropWhile fun c => c = '/').reverse⟩

/-- Embedding of `handler.do_POST` (lines 251-279).  The request body parse
outcome is passed in as `parsed` (an `Except.error` standing for the
exception `json.loads` raised); the orchestrator is passed in abstractly as
`orch`, whose `Except.error` outcome stands for any exception it raises and
is discarded exactly as the bare `except Exception: pass` of lines 269-273
discards it. -/
def do_POST (orch : String → Update → Except String Unit)
    (rawPath : String) (parsed : Except String Update) : HttpResp :=
  let path := stripQuery rawPath
  if pyStartsWith path "/webhook/" then
    let token := pyDrop path ("/webhook/".length)
    if token = "" then { code := 400, body := RespBody.err "Missing token" }
    else
      match parsed with
      | Except.error e => { code := 400, body := RespBody.err ("Bad JSON: " ++ e) }
      | Except.ok update =>
        let _swallowed := orch token update
        { code := 200, body := RespBody.okTrue }
  else { code := 404, body := RespBody.err "Not found" }

/-! ## Credential-validation route (feature-complete variant, not in src/) -/

/-- Character class of the credential format pattern. -/
def isTokenChar (c : Char) : Bool :=
  c.isAlphanum || c = '_' || c = '-'

/-- Modelled from the spec: the credential format pattern of section 3,
digits, a colon, then 30 or more characters from [A-Za-z0-9_-], anchored at
both ends.  The reduced variant in src/ performs no such validation, so the
pattern is taken from the wording of the spec. -/
def tokenFormatValid (s : String) : Bool :=
  let ds := s.data.takeWhile Char.isDigit
  match s.data.drop ds.length with
  | ':' :: tail => decide (1 ≤ ds.length) && decide (30 ≤ tail.length) && tail.all isTokenChar
  | _ => false

/-- Structured result of the getMe identity check. -/
structure GetMeResult where
  ok : Bool
  username : Option String
  first_name : Option String
  bot_id : Option Int
  error : Option String
deriving DecidableEq

/-- Modelled from the spec: `fetchBotIdentity` of the feature-complete
variant (section 4.1), absent from src/: a GET to the getMe method with
timeout 8, any failure degrading to a structured failure result carrying the
error description. -/
def fetchBotIdentity (netGetMe : HttpRequest → Except String GetMeResult)
    (token : String) : GetMeResult × List HttpRequest :=
  let req : HttpRequest :=
    { url := Url.tgGetMe token, method := "GET", timeout := 8, body := none }
  match netGetMe req with
  | Except.ok r => (r, [req])
  | Except.error e =>
    ({ ok := false, username := none, first_name := none, bot_id := none,
       error := some e }, [req])

/-- Modelled from the spec: the GET /validate-token route of the
feature-complete entry-point variant (section 4.5), absent from src/:
400 with "No token" on a missing or blank token parameter, 400 with
"Invalid token format" when the format pattern fails (no outbound call in
either case), otherwise a getMe check answered with status 200 whether the
platform accepts or rejects the credential. -/
def validate_token_route (netGetMe : HttpRequest → Except String GetMeResult)
    (tokenParam : Option String) : HttpResp × List HttpRequest :=
  match tokenParam with
  | none => ({ code := 400, body := RespBody.validateErr "No token" }, [])
  | some t =>
    if t = "" then ({ code := 400, body := RespBody.validateErr "No token" }, [])
    else if !(tokenFormatValid t) then
      ({ code := 400, body := RespBody.validateErr "Invalid token format" }, [])
    else
      let r := fetchBotIdentity netGetMe t
      if r.1.ok then
        ({ code := 200,
           body := RespBody.validateOk (r.1.username.getD "") (r.1.first_name.getD "") (r.1.bot_id.getD 0) }, r.2)
      else
        ({ code := 200, body := RespBody.validateErr (r.1.error.getD "Invalid token") }, r.2)

/-- Occurrence of a pattern inside a character list. -/
def listInfix (pat : List Char) : List Char → Bool
  | [] => pat.isEmpty
  | c :: rest => pat.isPrefixOf (c :: rest) || listInfix pat rest

/-- Substring containment: Python `pat in s`. -/
def strContains (s pat : String) : Bool :=
  listInfix pat.data s.data

/-- Lexicographic comparison of character lists by code points. -/
def charListLe : List Char → List Char → Bool
  | [], _ => true
  | _ :: _, [] => false
  | x :: xs, y :: ys =>
    if x.toNat < y.toNat then true
    else if y.toNat < x.toNat then false
    else charListLe xs ys

/-- Lexicographic comparison of strings by code points, the order Python
`sorted` uses on strings. -/
def strLexLe (a b : String) : Bool :=
  charListLe a.data b.data

/-- Whether a list of strings is in the sorted order Python `sorted`
produces. -/
def lexSorted : List String → Bool
  | [] => true
  | [_] => true
  | a :: b :: rest => strLexLe a b && lexSorted (b :: rest)

/-! ## Concrete fixtures shared by witnesses and counterexamples -/

/-- Network oracle on which every outbound call raises. -/
def noNet : Net :=
  { tg := fun _ => Except.error "down", fetch := fun _ => Except.error "down",
    ai := fun _ => Except.error "down", logm := fun _ => Except.error "down",
    loge := fun _ => Except.error "down" }

/-- Handler semantics never reached by the fixtures that use it. -/
def noExec : HandlerSem := fun _ _ => Except.error "unused"

/-- An update carrying neither a message nor an edited message. -/
def emptyUpdate : Update := { message := none, edited_message := none }

/-- A message from Alice reading "/start". -/
def c2Msg : Message :=
  { chat := some { id := some 5 },
    from_ := some { id := some 7, username := some "alice_u", first_name := some "Alice" },
    text := some "/start" }

/-- An update carrying only `c2Msg`. -/
def c2Update : Update := { message := some c2Msg, edited_message := none }

/-- A configured command named "/foo". -/
def cFoo : Command :=
  { command_name := some "/foo", handler_code := some "reply_text = 1",
    is_ai_assistant := false, ai_system_prompt := none }

/-- A configured command named "/bar". -/
def cBar : Command :=
  { command_name := some "/bar", handler_code := some "reply_text = 2",
    is_ai_assistant := false, ai_system_prompt := none }

/-- Network oracle whose command fetch returns "/foo" then "/bar". -/
def fetchFooBar : Net := { noNet with fetch := fun _ => Except.ok [cFoo, cBar] }

/-- A message from Alice reading "/help". -/
def c3Msg : Message :=
  { chat := some { id := some 5 },
    from_ := some { id := some 7, username := some "alice_u", first_name := some "Alice" },
    text := some "/help" }

/-- An update carrying only `c3Msg`. -/
def c3Update : Update := { message := some c3Msg, edited_message := none }

/-- A message carried only as an edited message, with every context field
present and different from the defaults. -/
def c10Msg : Message :=
  { chat := some { id := some 42 },
    from_ := some { id := some 9, username := some "edith", first_name := some "Edith" },
    text := some "/boom" }

/-- An update carrying only an edited message. -/
def c10Update : Update := { message := none, edited_message := some c10Msg }

/-- A command named "/boom" whose handler raises under `failExec`. -/
def cBoom : Command :=
  { command_name := some "/boom", handler_code := some "raise_it",
    is_ai_assistant := false, ai_system_prompt := none }

/-- Network oracle whose command fetch returns only `cBoom`. -/
def fetchBoom : Net := { noNet with fetch := fun _ => Except.ok [cBoom] }

/-- Handler semantics under which every evaluation raises. -/
def failExec : HandlerSem := fun _ _ => Except.error "kaput"

/-- A message from Alice reading "/boom". -/
def c5Msg : Message :=
  { chat := some { id := some 5 },
    from_ := some { id := some 7, username := some "alice_u", first_name := some "Alice" },
    text := some "/boom" }

/-- An update carrying only `c5Msg`. -/
def c5Update : Update := { message := some c5Msg, edited_message := none }

/-! ## Helper lemmas -/

theorem pyStrip_empty : pyStrip "" = "" := rfl

theorem data_append (a b : String) : (a ++ b).data = a.data ++ b.data := by
  cases a
  cases b
  rfl

theorem pyJoin_head_ne (sep x : String) (xs : List String) (hx : x.data ≠ [])
    (h : (pyJoin sep (x :: xs)).data = []) : False := by
  cases xs with
  | nil => exact hx (by simpa [pyJoin] using h)
  | cons y ys =>
    rw [pyJoin, data_append, data_append] at h
    rcases List.append_eq_nil.mp h with ⟨h1, _⟩
    rcases List.append_eq_nil.mp h1 with ⟨h2, _⟩
    exact hx h2

theorem helpReply_ne_empty (m : List (String × Command)) : helpReply m ≠ "" := by
  intro h
  exact pyJoin_head_ne "\n" "*Available Commands:*\n" (m.map fun p => "`" ++ p.1 ++ "`")
    (by decide) (by rw [← helpReply, h])

theorem extractCmdName_start : extractCmdName "/start" = some "/start" := by decide

theorem extractCmdName_help : extractCmdName "/help" = some "/help" := by decide

theorem pyStartsWith_start : pyStartsWith "/start" "/" = true := by decide

theorem pyStartsWith_help : pyStartsWith "/help" "/" = true := by decide

theorem start_ne_empty : ("/start" : String) ≠ "" := by decide

theorem help_ne_empty : ("/help" : String) ≠ "" := by decide

theorem help_ne_start : ("/help" : String) ≠ "/start" := by decide

theorem startGreeting_ne_empty : startGreeting ≠ "" := by decide

theorem noCmds_ne_empty : ("No commands configured for this bot yet." : String) ≠ "" := by decide

theorem apology_ne_empty : ("Sorry, something went wrong with that command." : String) ≠ "" := by decide

/-! ## Claim theorems -/

/-- C1: for every POST to the webhook route with a non-empty token path
segment and a request body that parses as JSON, the entry point answers
status 200 with the ok-true body, whatever the orchestrator call does,
including raising an arbitrary exception. -/
theorem c1_webhook_always_ok (orch : String → Update → Except String Unit)
    (rawPath : String) (u : Update)
    (hs : pyStartsWith (stripQuery rawPath) "/webhook/" = true)
    (hne : pyDrop (stripQuery rawPath) ("/webhook/".length) ≠ "") :
    do_POST orch rawPath (Except.ok u) = { code := 200, body := RespBody.okTrue } := by
  simp [do_POST, hs, hne]

/-- C1 witness: concrete webhook POST with a raising orchestrator. -/
theorem c1_witness :
    pyStartsWith (stripQuery "/webhook/abc") "/webhook/" = true ∧
    pyDrop (stripQuery "/webhook/abc") ("/webhook/".length) ≠ "" ∧
    do_POST (fun _ _ => Except.error "boom") "/webhook/abc" (Except.ok emptyUpdate)
      = { code := 200, body := RespBody.okTrue } :=
  ⟨by decide, by decide,
   c1_webhook_always_ok (fun _ _ => Except.error "boom") "/webhook/abc" emptyUpdate
     (by decide) (by decide)⟩

/-- C4: for every GET to the validate-token route with a present token that
fails the format pattern, the route answers 400 with the invalid-format error
and issues no outbound request. -/
theorem c4_invalid_format (netGetMe : HttpRequest → Except String GetMeResult)
    (t : String) (hne : t ≠ "") (hbad : tokenFormatValid t = false) :
    validate_token_route netGetMe (some t)
      = ({ code := 400, body := RespBody.validateErr "Invalid token format" }, []) := by
  simp [validate_token_route, hne, hbad]

/-- C4 witness: the concrete malformed credential "abc". -/
theorem c4_witness :
    ("abc" : String) ≠ "" ∧ tokenFormatValid "abc" = false ∧
    validate_token_route (fun _ => Except.error "x") (some "abc")
      = ({ code := 400, body := RespBody.validateErr "Invalid token format" }, []) :=
  ⟨by decide, by decide,
   c4_invalid_format (fun _ => Except.error "x") "abc" (by decide) (by decide)⟩

/-- C7: a non-empty reply is sent and then logged exactly once, the logged
response being the reply itself when the send reports a truthy ok and the
literal sentinel otherwise; a missing or empty reply produces no send and no
log. -/
theorem c7_send_then_log (phpHost : String) (net : Net) (token : String)
    (chat_id user_id : Int) (username text : String) :
    (∀ r : String, r ≠ "" →
      (completeReply phpHost net token chat_id user_id username text (some r)).1
        = [Event.sendMessage token chat_id r,
           Event.logMessage token user_id username text
             (if (telegram_send net.tg token chat_id r).1.ok then r else "[send failed]")]) ∧
    completeReply phpHost net token chat_id user_id username text none = ([], []) ∧
    completeReply phpHost net token chat_id user_id username text (some "") = ([], []) := by
  refine ⟨fun r hr => ?_, rfl, ?_⟩
  · simp [completeReply, hr]
  · simp [completeReply]

/-- C7 witness: a concrete non-empty reply on a failing network. -/
theorem c7_witness :
    ("hi" : String) ≠ "" ∧
    (completeReply "" noNet "tok" 5 7 "u" "txt" (some "hi")).1
      = [Event.sendMessage "tok" 5 "hi",
         Event.logMessage "tok" 7 "u" "txt"
           (if (telegram_send noNet.tg "tok" 5 "hi").1.ok then "hi" else "[send failed]")] :=
  ⟨by decide, (c7_send_then_log "" noNet "tok" 5 7 "u" "txt").1 "hi" (by decide)⟩

/-- C8: with the external-backend host unset, the command fetch returns the
empty list, the two log operations do nothing, and the AI-chat call returns
its fixed sentinel, none of them issuing any HTTP request. -/
theorem c8_unset_host_degrades
    (fetch : HttpRequest → Except String (List Command))
    (logmNet logeNet : HttpRequest → Except String Unit)
    (aiNet : HttpRequest → Except String AiResp)
    (token : String) (uid : Int)
    (username message response cn em um sp : String) :
    get_bot_commands "" fetch token = ([], []) ∧
    log_message "" logmNet token uid username message response = [] ∧
    log_error "" logeNet token cn em uid = [] ∧
    call_ai "" aiNet token um sp = ("AI is not configured.", []) := by
  refine ⟨rfl, rfl, rfl, rfl⟩

/-- C9 counterexample: the request issued by the log-message call carries
timeout 5, not the claimed 8. -/
theorem c9_counterexample :
    ((log_message "h" (fun _ => Except.ok ()) "tok" 1 "u" "m" "r").all
      fun r => r.timeout == 8) = false := by
  decide

/-- C9 (amended): every request of the send-message and command-fetch calls
carries timeout 8, every request of the log-message and log-error calls
carries timeout 5, and every request of the AI-chat call carries timeout
15. -/
theorem c9_timeouts (phpHost : String) (net : Net) (token : String)
    (chat_id uid : Int) (text username message response cn em um sp : String) :
    ((telegram_send net.tg token chat_id text).2.all fun r => r.timeout == 8) = true ∧
    ((get_bot_commands phpHost net.fetch token).2.all fun r => r.timeout == 8) = true ∧
    ((log_message phpHost net.logm token uid username message response).all
        fun r => r.timeout == 5) = true ∧
    ((log_error phpHost net.loge token cn em uid).all fun r => r.timeout == 5) = true ∧
    ((call_ai phpHost net.ai token um sp).2.all fun r => r.timeout == 15) = true := by
  refine ⟨?_, ?_, ?_, ?_, ?_⟩
  · simp only [telegram_send]
    split <;> rfl
  · simp only [get_bot_commands]
    split
    · rfl
    · split <;> rfl
  · simp only [log_message]
    split <;> rfl
  · simp only [log_error]
    split <;> rfl
  · simp only [call_ai]
    split
    · rfl
    · split <;> rfl

/-- C10: when an update carries only an edited message, the execution
context built for the handler is read from the absent message field, so its
chat identifier is 0, its username is "user" and its first name is "there",
whatever the edited message contains; a handler probing the context through
`execute_handler` observes exactly those defaults. -/
theorem c10_context_from_message_field (u : Update) (m : Message) (um hc : String)
    (hm : u.message = none) (he : u.edited_message = some m) :
    (buildExecCtx um u).chat_id = 0 ∧ (buildExecCtx um u).username = "user" ∧
    (buildExecCtx um u).first_name = "there" ∧
    execute_handler (fun _ ctx => Except.ok (ctx.username ++ "|" ++ ctx.first_name)) hc um u
      = Except.ok "user|there" := by
  refine ⟨?_, ?_, ?_, ?_⟩ <;> simp [buildExecCtx, execute_handler, hm]

/-- C10 witness: a concrete edited-message-only update with a chat
identifier, username and first name all different from the defaults. -/
theorem c10_witness :
    c10Update.message = none ∧ c10Update.edited_message = some c10Msg ∧
    ((buildExecCtx "/boom" c10Update).chat_id = 0 ∧
     (buildExecCtx "/boom" c10Update).username = "user" ∧
     (buildExecCtx "/boom" c10Update).first_name = "there" ∧
     execute_handler (fun _ ctx => Except.ok (ctx.username ++ "|" ++ ctx.first_name))
         "reply_text = chat_id" "/boom" c10Update = Except.ok "user|there") :=
  ⟨rfl, rfl, c10_context_from_message_field c10Update c10Msg "/boom" "reply_text = chat_id" rfl rfl⟩

/-- C6: an update carrying neither a message nor an edited message, or whose
chosen message lacks a chat identifier, or whose text is absent or empty
after stripping, is dropped: the orchestrator makes no call at all, in
particular no send and no telemetry call. -/
theorem c6_drop (phpHost : String) (net : Net) (execSem : HandlerSem)
    (token : String) (update : Update)
    (h : (update.message = none ∧ update.edited_message = none) ∨
         ∃ m, pickedMsg update = some m ∧
           (m.chat.bind Chat.id = none ∨ m.text = none ∨ pyStrip (m.text.getD "") = "")) :
    handle_update phpHost net execSem token update = ([], []) := by
  rcases h with ⟨h1, h2⟩ | ⟨m, hm, hc | hc | hc⟩
  · simp [handle_update, pickedMsg, h1, h2]
  · simp [handle_update, hm, hc]
  · simp [handle_update, hm, hc, pyStrip_empty]
  · simp [handle_update, hm, hc]

/-- C6 witness: the update with neither message field. -/
theorem c6_witness :
    (emptyUpdate.message = none ∧ emptyUpdate.edited_message = none) ∧
    handle_update "" noNet noExec "tok" emptyUpdate = ([], []) :=
  ⟨⟨rfl, rfl⟩, c6_drop "" noNet noExec "tok" emptyUpdate (Or.inl ⟨rfl, rfl⟩)⟩

/-- C2 counterexample: for the concrete "/start" update from Alice with no
configured commands, the reply is the fixed greeting, and that greeting does
not contain the sender first name "Alice", contradicting the claim that the
greeting includes the sender first name. -/
theorem c2_counterexample :
    sentTexts (handle_update "" noNet noExec "tok" c2Update).1 = [startGreeting] ∧
    c2Msg.from_ = some { id := some 7, username := some "alice_u", first_name := some "Alice" } ∧
    strContains startGreeting "Alice" = false :=
  ⟨by decide, rfl, by decide⟩

/-- C2 (amended): for every update whose stripped text is exactly "/start"
with no configured "/start" command, the reply is the fixed greeting, which
points to "/help" but does not mention the sender first name. -/
theorem c2_start_greeting (phpHost : String) (net : Net) (execSem : HandlerSem)
    (token : String) (update : Update) (msg : Message) (cid : Int)
    (hpick : pickedMsg update = some msg)
    (hchat : msg.chat.bind Chat.id = some cid) (hcid : cid ≠ 0)
    (htext : pyStrip (msg.text.getD "") = "/start")
    (hlook : (buildCmdMap (get_bot_commands phpHost net.fetch token).1).lookup "/start" = none) :
    sentTexts (handle_update phpHost net execSem token update).1 = [startGreeting] ∧
    strContains startGreeting "/help" = true := by
  constructor
  · simp only [handle_update, hpick, hchat, htext, Option.getD_some]
    rw [if_neg]
    · simp [runBranch, dispatchTarget, extractCmdName_start, hlook, pyStartsWith_start,
        start_ne_empty, completeReply, startGreeting_ne_empty, sentTexts]
    · rintro (h | h)
      · exact hcid h
      · exact absurd h start_ne_empty
  · decide

/-- C2 witness: the concrete "/start" update from Alice with no configured
commands. -/
theorem c2_witness :
    pickedMsg c2Update = some c2Msg ∧ (5 : Int) ≠ 0 ∧
    pyStrip (c2Msg.text.getD "") = "/start" ∧
    (buildCmdMap (get_bot_commands "" noNet.fetch "tok").1).lookup "/start" = none ∧
    (sentTexts (handle_update "" noNet noExec "tok" c2Update).1 = [startGreeting] ∧
     strContains startGreeting "/help" = true) :=
  ⟨rfl, by decide, by decide, rfl,
   c2_start_greeting "" noNet noExec "tok" c2Update c2Msg 5 rfl rfl (by decide) (by decide) rfl⟩

/-- C3 counterexample: with the backend returning "/foo" before "/bar", the
"/help" reply lists the names in that order, which is not the sorted order
the claim requires. -/
theorem c3_counterexample :
    sentTexts (handle_update "h" fetchFooBar noExec "tok" c3Update).1
      = ["*Available Commands:*\n\n`/foo`\n`/bar`"] ∧
    (buildCmdMap [cFoo, cBar]).map Prod.fst = ["/foo", "/bar"] ∧
    lexSorted ["/foo", "/bar"] = false :=
  ⟨by decide, by decide, by decide⟩

/-- C3 (amended): for every update whose stripped text is exactly "/help"
with no configured "/help" command, the reply is the back-tick-quoted
listing of the configured command names in the insertion order of the
command map (the order the backend returned them), or the fixed
no-commands-configured message when the map is empty. -/
theorem c3_help_listing (phpHost : String) (net : Net) (execSem : HandlerSem)
    (token : String) (update : Update) (msg : Message) (cid : Int)
    (hpick : pickedMsg update = some msg)
    (hchat : msg.chat.bind Chat.id = some cid) (hcid : cid ≠ 0)
    (htext : pyStrip (msg.text.getD "") = "/help")
    (hlook : (buildCmdMap (get_bot_commands phpHost net.fetch token).1).lookup "/help" = none) :
    sentTexts (handle_update phpHost net execSem token update).1
      = [if (buildCmdMap (get_bot_commands phpHost net.fetch token).1).isEmpty
         then "No commands configured for this bot yet."
         else helpReply (buildCmdMap (get_bot_commands phpHost net.fetch token).1)] := by
  simp only [handle_update, hpick, hchat, htext, Option.getD_some]
  rw [if_neg]
  · by_cases hmap : (buildCmdMap (get_bot_commands phpHost net.fetch token).1).isEmpty
    · simp [runBranch, dispatchTarget, extractCmdName_help, hlook, pyStartsWith_help,
        help_ne_empty, help_ne_start, hmap, completeReply, noCmds_ne_empty, sentTexts]
    · simp [runBranch, dispatchTarget, extractCmdName_help, hlook, pyStartsWith_help,
        help_ne_empty, help_ne_start, hmap, completeReply, helpReply_ne_empty, sentTexts]
  · rintro (h | h)
    · exact hcid h
    · exact absurd h help_ne_empty

/-- C3 witness: the concrete "/help" update against a backend returning
"/foo" and "/bar". -/
theorem c3_witness :
    pickedMsg c3Update = some c3Msg ∧ (5 : Int) ≠ 0 ∧
    pyStrip (c3Msg.text.getD "") = "/help" ∧
    (buildCmdMap (get_bot_commands "h" fetchFooBar.fetch "tok").1).lookup "/help" = none ∧
    sentTexts (handle_update "h" fetchFooBar noExec "tok" c3Update).1
      = [if (buildCmdMap (get_bot_commands "h" fetchFooBar.fetch "tok").1).isEmpty
         then "No commands configured for this bot yet."
         else helpReply (buildCmdMap (get_bot_commands "h" fetchFooBar.fetch "tok").1)] :=
  ⟨rfl, by decide, by decide, by decide,
   c3_help_listing "h" fetchFooBar noExec "tok" c3Update c3Msg 5 rfl rfl (by decide)
     (by decide) (by decide)⟩

/-- C5: when the matched command handler raises, the reply is the fixed
apology string and exactly one logError call is issued, carrying the command
name, the wrapped error text and the sender identifier; the orchestrator
completes normally. -/
theorem c5_handler_failure (phpHost : String) (net : Net) (execSem : HandlerSem)
    (token : String) (update : Update) (msg : Message) (cid : Int) (t cn e : String)
    (cmd : Command)
    (hpick : pickedMsg update = some msg)
    (hchat : msg.chat.bind Chat.id = some cid) (hcid : cid ≠ 0)
    (htext : pyStrip (msg.text.getD "") = t) (htne : t ≠ "")
    (hcmd : extractCmdName t = some cn) (hcn : cn ≠ "")
    (hlook : (buildCmdMap (get_bot_commands phpHost net.fetch token).1).lookup cn = some cmd)
    (hexec : execSem (cmd.handler_code.getD "reply_text = \x27Hi!\x27") (buildExecCtx t update)
      = Except.error e) :
    sentTexts (handle_update phpHost net execSem token update).1
      = ["Sorry, something went wrong with that command."] ∧
    loggedErrors (handle_update phpHost net execSem token update).1
      = [(token, cn, "Handler error: " ++ e, (msg.from_.bind Sender.id).getD 0)] := by
  constructor <;>
  · simp only [handle_update, hpick, hchat, htext, Option.getD_some]
    rw [if_neg]
    · simp [runBranch, dispatchTarget, hcmd, hcn, hlook, execute_handler, hexec,
        completeReply, apology_ne_empty, sentTexts, loggedErrors]
    · rintro (h | h)
      · exact hcid h
      · exact htne h

/-- C5 witness: the concrete "/boom" update whose configured handler raises
"kaput". -/
theorem c5_witness :
    pickedMsg c5Update = some c5Msg ∧
    extractCmdName "/boom" = some "/boom" ∧
    (buildCmdMap (get_bot_commands "h" fetchBoom.fetch "tok").1).lookup "/boom" = some cBoom ∧
    failExec (cBoom.handler_code.getD "reply_text = \x27Hi!\x27") (buildExecCtx "/boom" c5Update)
      = Except.error "kaput" ∧
    (sentTexts (handle_update "h" fetchBoom failExec "tok" c5Update).1
        = ["Sorry, something went wrong with that command."] ∧
     loggedErrors (handle_update "h" fetchBoom failExec "tok" c5Update).1
        = [("tok", "/boom", "Handler error: kaput", 7)]) :=
  ⟨rfl, by decide, by decide, rfl,
   c5_handler_failure "h" fetchBoom failExec "tok" c5Update c5Msg 5 "/boom" "/boom" "kaput"
     cBoom rfl rfl (by decide) (by decide) (by decide) (by decide) (by decide) (by decide) rfl⟩

end BotForge
